import Mathlib

/-!
Verification of the Telegram channel-manager bot
(`telegram_channel_manager_bot_python_advanced_starter.py`).

The Python handlers are shallowly embedded as pure functions
`BotConfig → BotConfig × List Effect`: external interactions
(replies, channel publishes, persistence writes, job registration)
are recorded as an ordered effect list, and values produced by the
transport collaborator (the message id returned by a send, the
success of a pin call) are supplied as oracle arguments.
-/

namespace TgBot

/-- The persisted configuration record, mirroring the `BotConfig` dataclass:
`channel_id` (optional string), `admin_ids` (list of integers),
`last_channel_message_id` (optional integer). -/
structure BotConfig where
  channel_id : Option String
  admin_ids : List Int
  last_channel_message_id : Option Int
deriving Repr, DecidableEq

/-- Python truthiness of an optional string: `None` and `""` are falsy. -/
def pyTruthyStr : Option String → Bool
  | none => false
  | some s => s != ""

/-- Python truthiness of an optional integer: `None` and `0` are falsy. -/
def pyTruthyInt : Option Int → Bool
  | none => false
  | some n => n != 0

/-! ## JSON serialization (ConfigStore)

`BotConfig.save` writes `json.dump(asdict(self))`; `BotConfig.load` reads
`BotConfig(**json.load(f))`.  We model the JSON document and the
encode/decode pair to state the save/load round trip. -/

/-- A JSON value, restricted to the shapes the config file uses. -/
inductive Json where
  | null
  | str (s : String)
  | int (n : Int)
  | arr (xs : List Json)
  | obj (fields : List (String × Json))
deriving Repr

/-- Encode an optional string as JSON (`None` becomes `null`). -/
def encOptStr : Option String → Json
  | none => .null
  | some s => .str s

/-- Encode an optional integer as JSON (`None` becomes `null`). -/
def encOptInt : Option Int → Json
  | none => .null
  | some n => .int n

/-- Decode an optional string from JSON. -/
def decOptStr : Json → Option (Option String)
  | .null => some none
  | .str s => some (some s)
  | _ => none

/-- Decode an optional integer from JSON. -/
def decOptInt : Json → Option (Option Int)
  | .null => some none
  | .int n => some (some n)
  | _ => none

/-- Decode a single JSON integer. -/
def decInt : Json → Option Int
  | .int n => some n
  | _ => none

/-- Decode a list of JSON values as integers. -/
def decInts : List Json → Option (List Int)
  | [] => some []
  | j :: js => do
      let n ← decInt j
      let ns ← decInts js
      pure (n :: ns)

/-- Decode a JSON array of integers. -/
def decIntList : Json → Option (List Int)
  | .arr xs => decInts xs
  | _ => none

/-- `json.dump(asdict(cfg))`: the serialized form of a config record. -/
def encodeConfig (c : BotConfig) : Json :=
  .obj [("channel_id", encOptStr c.channel_id),
        ("admin_ids", .arr (c.admin_ids.map .int)),
        ("last_channel_message_id", encOptInt c.last_channel_message_id)]

/-- `BotConfig(**json.load(f))`: deserialization of a stored document. -/
def decodeConfig (j : Json) : Option BotConfig :=
  match j with
  | .obj fs => do
      let jc ← fs.lookup "channel_id"
      let ch ← decOptStr jc
      let ja ← fs.lookup "admin_ids"
      let ads ← decIntList ja
      let jl ← fs.lookup "last_channel_message_id"
      let last ← decOptInt jl
      pure ⟨ch, ads, last⟩
  | _ => none

/-! ## Python `float()` values and parsing (for `/schedule_in`) -/

/-- A Python float value, with exact rational arithmetic for the finite
values the bot's `/schedule_in` handler manipulates. -/
inductive PyFloat where
  | finite (q : ℚ)
  | inf
  | negInf
  | nan
deriving Repr, DecidableEq

/-- `minutes * 60` on Python floats. -/
def pyFloatMul60 : PyFloat → PyFloat
  | .finite q => .finite (q * 60)
  | .inf => .inf
  | .negInf => .negInf
  | .nan => .nan

/-- Human-readable rendering of a float for reply texts. -/
def pyFloatRepr : PyFloat → String
  | .finite q => if q.den = 1 then toString q.num else toString q.num ++ "/" ++ toString q.den
  | .inf => "inf"
  | .negInf => "-inf"
  | .nan => "nan"

/-- Numeric value of a digit list, most significant first. -/
def digitsVal (cs : List Char) : Nat :=
  cs.foldl (fun acc c => 10 * acc + (c.toNat - 48)) 0

/-- Strip leading and trailing whitespace from a character list. -/
def stripChars (cs : List Char) : List Char :=
  ((cs.dropWhile Char.isWhitespace).reverse.dropWhile Char.isWhitespace).reverse

/-- Lowercase every character. -/
def lowerChars (cs : List Char) : List Char := cs.map Char.toLower

/-- Consume an optional leading sign; returns whether it was `-`. -/
def parseSign : List Char → Bool × List Char
  | '+' :: cs => (false, cs)
  | '-' :: cs => (true, cs)
  | cs => (false, cs)

/-- First code points of the contiguous 10-character runs of Unicode
decimal digits (category `Nd`, digit values `0..9` from the run start),
per the Unicode 14.0 data CPython 3.11 ships; the 50-character
mathematical-digits block at U+1D7CE is listed as its five 10-runs. -/
def ndRangeStarts : List Nat :=
  [0x30, 0x660, 0x6F0, 0x7C0, 0x966, 0x9E6, 0xA66, 0xAE6, 0xB66, 0xBE6,
   0xC66, 0xCE6, 0xD66, 0xDE6, 0xE50, 0xED0, 0xF20, 0x1040, 0x1090, 0x17E0,
   0x1810, 0x1946, 0x19D0, 0x1A80, 0x1A90, 0x1B50, 0x1BB0, 0x1C40, 0x1C50,
   0xA620, 0xA8D0, 0xA900, 0xA9D0, 0xA9F0, 0xAA50, 0xABF0, 0xFF10, 0x104A0,
   0x10D30, 0x11066, 0x110F0, 0x11136, 0x111D0, 0x112F0, 0x11450, 0x114D0,
   0x11650, 0x116C0, 0x11730, 0x118E0, 0x11950, 0x11C50, 0x11D50, 0x11DA0,
   0x16A60, 0x16AC0, 0x16B50, 0x1D7CE, 0x1D7D8, 0x1D7E2, 0x1D7EC, 0x1D7F6,
   0x1E140, 0x1E2F0, 0x1E950, 0x1FBF0]

/-- Digit value of a Unicode decimal digit (category `Nd`), `none` for
every other character. -/
def pyDigitVal (c : Char) : Option Nat :=
  let n := c.toNat
  (ndRangeStarts.find? fun s => decide (s ≤ n) && decide (n ≤ s + 9)).map fun s => n - s

/-- Code points Python's `str.isspace` accepts (what
`_PyUnicode_TransformDecimalAndSpaceToASCII` maps to a space). -/
def pySpaceCodes : List Nat :=
  [0x09, 0x0A, 0x0B, 0x0C, 0x0D, 0x1C, 0x1D, 0x1E, 0x1F, 0x20, 0x85, 0xA0,
   0x1680, 0x2000, 0x2001, 0x2002, 0x2003, 0x2004, 0x2005, 0x2006, 0x2007,
   0x2008, 0x2009, 0x200A, 0x2028, 0x2029, 0x202F, 0x205F, 0x3000]

/-- Python whitespace test over the full Unicode set. -/
def pyIsSpace (c : Char) : Bool := pySpaceCodes.contains c.toNat

/-- CPython's `_PyUnicode_TransformDecimalAndSpaceToASCII`, applied to
each character before numeric parsing: a Unicode decimal digit becomes
the corresponding ASCII digit, Unicode whitespace becomes a space, and
everything else is unchanged. -/
def pyTransformChar (c : Char) : Char :=
  match pyDigitVal c with
  | some d => Char.ofNat (48 + d)
  | none => if pyIsSpace c then ' ' else c

/-- Apply the digit/space-to-ASCII transform to a whole string. -/
def pyTransform (cs : List Char) : List Char := cs.map pyTransformChar

/-- Continue a digit run, allowing a PEP 515 underscore only when a digit
follows it directly; the collected digits are returned without the
underscores, and the first character that cannot extend the run starts
the remainder. -/
def digitsURest : List Char → List Char × List Char
  | '_' :: c :: rest =>
      if c.isDigit then
        let (ds, r) := digitsURest rest
        (c :: ds, r)
      else ([], '_' :: c :: rest)
  | c :: rest =>
      if c.isDigit then
        let (ds, r) := digitsURest rest
        (c :: ds, r)
      else ([], c :: rest)
  | [] => ([], [])

/-- A digit run per PEP 515: it must start with a digit, and underscores
may appear only between digits.  Returns the digits (underscores
dropped) and the unconsumed remainder. -/
def spanDigitsU : List Char → List Char × List Char
  | c :: rest =>
      if c.isDigit then
        let (ds, r) := digitsURest rest
        (c :: ds, r)
      else ([], c :: rest)
  | [] => ([], [])

/-- Unsigned mantissa of a float literal — `digits`, `digits.digits`,
`digits.` or `.digits`, with PEP 515 underscores — as the digit list and
the length of the fractional part. -/
def parseMantissaU (cs : List Char) : Option ((List Char × Nat) × List Char) :=
  let (ip, r1) := spanDigitsU cs
  match r1 with
  | '.' :: r2 =>
      let (fp, r3) := spanDigitsU r2
      if ip.isEmpty && fp.isEmpty then none
      else some ((ip ++ fp, fp.length), r3)
  | _ =>
      if ip.isEmpty then none else some ((ip, 0), r1)

/-- Optional exponent part `e[±]digits` (input already lowercased),
with PEP 515 underscores. -/
def parseExponentU (cs : List Char) : Option (Int × List Char) :=
  match cs with
  | 'e' :: r1 =>
      let (neg, r2) := parseSign r1
      let (ds, r3) := spanDigitsU r2
      if ds.isEmpty then none
      else some ((if neg then -(digitsVal ds : Int) else (digitsVal ds : Int)), r3)
  | _ => none

/-- The smallest magnitude at which `float()`'s round-to-nearest-even
conversion leaves the double range: `2^1024 - 2^970`, the midpoint
between the largest finite double and `2^1024` (the all-ones mantissa of
the largest double is odd, so the tie rounds up to infinity).  Checked
against CPython: `float(str(2^1024 - 2^970)) = inf` while one less
converts to the largest finite double.  Stated as a numeral so that
comparisons against it evaluate; `overflowNum_eq` certifies the value. -/
def overflowNum : Nat := 179769313486231580793728971405303415079934132710037826936173778980444968292764750946649017977587207096330286416692887910946555547851940402630657488671505820681908902000708383676273854845817711531764475730270069855571366959622842914819860834936475292719074168444365510704342711559699508093042880177904174497792

/-- The overflow threshold is `2^1024 - 2^970`. -/
theorem overflowNum_eq : overflowNum = 2 ^ 1024 - 2 ^ 970 := by norm_num [overflowNum]

/-- Whether the decimal value `D * 10^k` saturates to infinity when
converted to a double, decided in integer arithmetic. -/
def sciOverflow (D : Nat) (k : Int) : Bool :=
  match k with
  | .ofNat n => decide (overflowNum ≤ D * 10 ^ n)
  | .negSucc m => decide (overflowNum * 10 ^ (m + 1) ≤ D)

/-- The exact rational value of the decimal `D * 10^k`. -/
def ratOfSci (D : Nat) (k : Int) : ℚ := (D : ℚ) * (10 : ℚ) ^ k

/-- Model of Python `int(s)`: the digit/space-to-ASCII transform, then
surrounding whitespace stripped, then an optional sign followed by a
PEP 515 digit run; every other string raises `ValueError`, modelled as
`none`. -/
def pyIntOfString (s : String) : Option Int :=
  let t := stripChars (pyTransform s.toList)
  let (neg, cs) := parseSign t
  let (ds, rest) := spanDigitsU cs
  if ds.isEmpty || !rest.isEmpty then none
  else some (if neg then -(digitsVal ds : Int) else (digitsVal ds : Int))

/-- Model of Python `float(s)`: the digit/space-to-ASCII transform, then
surrounding whitespace stripped, case-insensitive, accepting a signed
decimal literal with optional fraction, optional exponent and PEP 515
underscores, as well as `inf`, `infinity` and `nan`; every other string
raises `ValueError`, modelled as `none`.  A literal whose magnitude
reaches the double overflow threshold saturates to `±inf` exactly as
`float()` does; a finite result is modelled by the literal's exact
decimal value (the IEEE nearest-double rounding of in-range values,
including gradual underflow to zero, is abstracted). -/
def pyFloatOfString (s : String) : Option PyFloat :=
  let t := lowerChars (stripChars (pyTransform s.toList))
  let (neg, cs) := parseSign t
  if cs = "inf".toList ∨ cs = "infinity".toList then
    some (if neg then .negInf else .inf)
  else if cs = "nan".toList then
    some .nan
  else
    match parseMantissaU cs with
    | none => none
    | some ((ds, fracLen), r) =>
        let (e, r2) :=
          match parseExponentU r with
          | some (e1, r3) => (e1, r3)
          | none => ((0 : Int), r)
        if r2.isEmpty then
          let D := digitsVal ds
          let k : Int := e - fracLen
          if sciOverflow D k then some (if neg then .negInf else .inf)
          else some (.finite (if neg then -(ratOfSci D k) else ratOfSci D k))
        else none

/-! ## Effects and jobs -/

/-- A scheduled job.  The Python closure `job_callback` captures the local
variable `text` by value; the channel is NOT part of the job because the
closure captures the shared mutable `cfg` object and reads
`cfg.channel_id` when it fires. -/
structure Job where
  text : String
deriving Repr, DecidableEq

/-- Externally visible actions a handler performs, in order. -/
inductive Effect where
  | reply (text : String)
  | sendMessage (chan : Option String) (text : String)
  | sendPhoto (chan : Option String) (photo : String) (caption : String)
  | pinMsg (chan : Option String) (msgId : Int)
  | save (c : BotConfig)
  | runOnce (delaySec : PyFloat) (job : Job)
deriving Repr, DecidableEq

/-! ## Reply texts (verbatim from the source) -/

def adminsOnlyMsg : String := "❌ यह कमांड केवल एडमिन्स के लिए है."

def greetingMsg : String :=
  "नमस्ते! मैं आपका चैनल मैनेजर बॉट हूँ.\nकमांड सूची देखने के लिए /help भेजें."

def firstAdminNote : String := "\n\n✅ आपको एडमिन बनाया गया है (पहला उपयोगकर्ता)."

def helpMsg : String :=
  "उपलब्ध कमांड्स:\n/setchannel <@username या -100...id> — चैनल जोड़ें\n/post <टेक्स्ट> — चैनल पर पोस्ट करें\n/post_photo (फोटो पर रिप्लाई करें) — फोटो चैनल पर पोस्ट करें\n/schedule_in <मिनट> <टेक्स्ट> — शेड्यूल पोस्ट\n/pin_last — बॉट द्वारा भेजे गए आखिरी चैनल मैसेज को पिन करें\n/addadmin <user_id> — नया एडमिन जोड़ें\n/status — वर्तमान सेटिंग्स\n"

def setchannelUsageMsg : String := "उपयोग: /setchannel <@username या -100...id>"

def setchannelOkMsg (channel : String) : String :=
  "✅ चैनल सेट: " ++ channel ++ "\nबॉट को उस चैनल में एडमिन बनाना न भूलें."

def addadminUsageMsg : String := "उपयोग: /addadmin <user_id>"

def addadminNumericMsg : String := "user_id संख्यात्मक होना चाहिए."

def addadminOkMsg (uid : Int) : String := "✅ एडमिन जोड़ा गया: " ++ toString uid

def channelFirstMsg : String := "पहले /setchannel चलाएँ."

def postUsageMsg : String := "उपयोग: /post <टेक्स्ट>"

def postOkMsg : String := "✅ पोस्ट कर दिया गया."

def photoUsageMsg : String := "किसी फोटो पर /post_photo रिप्लाई करें (कैप्शन वैकल्पिक)."

def photoOkMsg : String := "✅ फोटो पोस्ट कर दिया गया."

def scheduleUsageMsg : String := "उपयोग: /schedule_in <मिनट> <टेक्स्ट>"

def minutesNumericMsg : String := "मिनट संख्या में दें."

def scheduledMsg (m : PyFloat) : String :=
  "⏱️ शेड्यूल हो गया — " ++ pyFloatRepr m ++ " मिनट बाद पोस्ट होगा."

def noRecentMsg : String := "कोई हालिया चैनल मैसेज नहीं मिला."

def pinnedMsg : String := "📌 पिन कर दिया गया."

def pinErrorMsg : String :=
  "पिन करते समय त्रुटि हुई. सुनिश्चित करें कि बॉट के पास पिन करने की अनुमति है."

def statusMsgOptStr : Option String → String
  | none => "None"
  | some s => s

def statusMsgOptInt : Option Int → String
  | none => "None"
  | some n => toString n

def statusMsgList (xs : List Int) : String :=
  "[" ++ String.intercalate ", " (xs.map toString) ++ "]"

/-- `" ".join(args)`. -/
def joinSpace : List String → String
  | [] => ""
  | [s] => s
  | s :: rest => s ++ " " ++ joinSpace rest

/-! ## Handlers

Each handler takes the acting user's id (`update.effective_user`, which
may be absent), its arguments, the transport oracles it needs, and the
current configuration; it returns the updated configuration and the
ordered list of effects it performed. -/

/-- `is_admin`: `user and cfg.admin_ids and user.id in cfg.admin_ids`. -/
def is_admin (uid : Option Int) (cfg : BotConfig) : Bool :=
  match uid with
  | none => false
  | some u => !cfg.admin_ids.isEmpty && cfg.admin_ids.contains u

/-- `/start`: bootstraps the first admin when `admin_ids` is empty, then
replies with the greeting. -/
def start (uid : Option Int) (cfg : BotConfig) : BotConfig × List Effect :=
  match uid with
  | some u =>
      if cfg.admin_ids.isEmpty then
        let cfg' := { cfg with admin_ids := [u] }
        (cfg', [.save cfg', .reply (greetingMsg ++ firstAdminNote)])
      else
        (cfg, [.reply greetingMsg])
  | none => (cfg, [.reply greetingMsg])

/-- `/help`: reply with the static command list. -/
def help_cmd (cfg : BotConfig) : BotConfig × List Effect :=
  (cfg, [.reply helpMsg])

/-- `/setchannel <ref>`: admin gate, then arity check, then set
`channel_id` and persist. -/
def setchannel (uid : Option Int) (args : List String) (cfg : BotConfig) :
    BotConfig × List Effect :=
  if !is_admin uid cfg then (cfg, [.reply adminsOnlyMsg])
  else
    match args with
    | [] => (cfg, [.reply setchannelUsageMsg])
    | channel :: _ =>
        let cfg' := { cfg with channel_id := some channel }
        (cfg', [.save cfg', .reply (setchannelOkMsg channel)])

/-- `/status`: report the current configuration (no auth gate). -/
def status (cfg : BotConfig) : BotConfig × List Effect :=
  (cfg, [.reply ("Channel: " ++ statusMsgOptStr cfg.channel_id ++
                 "\nAdmins: " ++ statusMsgList cfg.admin_ids ++
                 "\nLast Channel Msg ID: " ++ statusMsgOptInt cfg.last_channel_message_id)])

/-- `/addadmin <user_id>`: admin gate, arity check, `int()` parse, then
append if absent and persist; the success reply is sent either way. -/
def addadmin (uid : Option Int) (args : List String) (cfg : BotConfig) :
    BotConfig × List Effect :=
  if !is_admin uid cfg then (cfg, [.reply adminsOnlyMsg])
  else
    match args with
    | [] => (cfg, [.reply addadminUsageMsg])
    | a :: _ =>
        match pyIntOfString a with
        | none => (cfg, [.reply addadminNumericMsg])
        | some newId =>
            if cfg.admin_ids.contains newId then
              (cfg, [.reply (addadminOkMsg newId)])
            else
              let cfg' := { cfg with admin_ids := cfg.admin_ids ++ [newId] }
              (cfg', [.save cfg', .reply (addadminOkMsg newId)])

/-- `/post <text>`: admin gate, channel precondition, arity check, then
publish the joined text, record the returned message id and persist.
`mid` is the message id the transport returns for the send. -/
def post (uid : Option Int) (args : List String) (mid : Int) (cfg : BotConfig) :
    BotConfig × List Effect :=
  if !is_admin uid cfg then (cfg, [.reply adminsOnlyMsg])
  else if !pyTruthyStr cfg.channel_id then (cfg, [.reply channelFirstMsg])
  else
    match args with
    | [] => (cfg, [.reply postUsageMsg])
    | _ =>
        let text := joinSpace args
        let cfg' := { cfg with last_channel_message_id := some mid }
        (cfg', [.sendMessage cfg.channel_id text, .save cfg', .reply postOkMsg])

/-- `/post_photo`: admin gate, channel precondition, then requires the
invocation to reply to a photo-bearing message.  `reply_photo` is the
best-quality photo's file id and the optional caption of the replied-to
message, or `none` when there is no such photo. -/
def post_photo (uid : Option Int) (reply_photo : Option (String × Option String))
    (mid : Int) (cfg : BotConfig) : BotConfig × List Effect :=
  if !is_admin uid cfg then (cfg, [.reply adminsOnlyMsg])
  else if !pyTruthyStr cfg.channel_id then (cfg, [.reply channelFirstMsg])
  else
    match reply_photo with
    | none => (cfg, [.reply photoUsageMsg])
    | some (file_id, cap) =>
        let caption := cap.getD ""
        let cfg' := { cfg with last_channel_message_id := some mid }
        (cfg', [.sendPhoto cfg.channel_id file_id caption, .save cfg', .reply photoOkMsg])

/-- The body of the closure `job_callback` inside `/schedule_in`: it reads
`cfg.channel_id` from the live configuration AT FIRE TIME (the closure
holds a reference to the shared `cfg` object), publishes the captured
text, records the returned id and persists. -/
def job_callback (job : Job) (mid : Int) (cfg : BotConfig) : BotConfig × List Effect :=
  let cfg' := { cfg with last_channel_message_id := some mid }
  (cfg', [.sendMessage cfg.channel_id job.text, .save cfg'])

/-- `/schedule_in <minutes> <text>`: admin gate, channel precondition,
arity check (`len(args) < 2`), `float()` parse of the first argument,
then registration of a one-shot job at `minutes * 60` seconds. -/
def schedule_in (uid : Option Int) (args : List String) (cfg : BotConfig) :
    BotConfig × List Effect :=
  if !is_admin uid cfg then (cfg, [.reply adminsOnlyMsg])
  else if !pyTruthyStr cfg.channel_id then (cfg, [.reply channelFirstMsg])
  else
    match args with
    | a :: b :: rest =>
        match pyFloatOfString a with
        | none => (cfg, [.reply minutesNumericMsg])
        | some minutes =>
            let text := joinSpace (b :: rest)
            (cfg, [.runOnce (pyFloatMul60 minutes) ⟨text⟩, .reply (scheduledMsg minutes)])
    | _ => (cfg, [.reply scheduleUsageMsg])

/-- `/pin_last`: admin gate, precondition that both `channel_id` and
`last_channel_message_id` are truthy, then the pin call; a transport
failure (oracle `pinOk = false`) is caught and surfaced as a reply. -/
def pin_last (uid : Option Int) (pinOk : Bool) (cfg : BotConfig) :
    BotConfig × List Effect :=
  if !is_admin uid cfg then (cfg, [.reply adminsOnlyMsg])
  else if !pyTruthyStr cfg.channel_id || !pyTruthyInt cfg.last_channel_message_id then
    (cfg, [.reply noRecentMsg])
  else
    (cfg, [.pinMsg cfg.channel_id (cfg.last_channel_message_id.getD 0),
           .reply (if pinOk then pinnedMsg else pinErrorMsg)])

/-! ## The command surface as one step function -/

/-- An inbound command with its arguments (and, for `/post_photo`, the
photo attached to the replied-to message). -/
inductive Cmd where
  | start
  | help
  | setchannel (args : List String)
  | status
  | addadmin (args : List String)
  | post (args : List String)
  | post_photo (reply_photo : Option (String × Option String))
  | schedule_in (args : List String)
  | pin_last
deriving Repr, DecidableEq

/-- Dispatch one inbound command, as registered in `main()`.  `uid` is the
acting user, `mid` the message id the transport would return for a
publish, `pinOk` whether a pin call would succeed. -/
def step (uid : Option Int) (mid : Int) (pinOk : Bool) (c : Cmd) (cfg : BotConfig) :
    BotConfig × List Effect :=
  match c with
  | .start => start uid cfg
  | .help => help_cmd cfg
  | .setchannel args => setchannel uid args cfg
  | .status => status cfg
  | .addadmin args => addadmin uid args cfg
  | .post args => post uid args mid cfg
  | .post_photo ph => post_photo uid ph mid cfg
  | .schedule_in args => schedule_in uid args cfg
  | .pin_last => pin_last uid pinOk cfg

/-- Helper: whether an effect is a channel text publish. -/
def Effect.isSendMessage : Effect → Bool
  | .sendMessage _ _ => true
  | _ => false

/-! ## General lemmas -/

theorem decIntList_encode (xs : List Int) :
    decIntList (.arr (xs.map .int)) = some xs := by
  simp only [decIntList]
  induction xs with
  | nil => rfl
  | cons x xs ih => simp [decInts, decInt, ih]

/-- Parser fidelity: a PEP 515 underscore literal is accepted with the
underscore dropped, as `float("1_5") = 15.0`. -/
theorem pyFloat_underscore : pyFloatOfString "1_5" = some (.finite (ratOfSci 15 0)) := rfl

/-- Parser fidelity: `float("inf")` and `float("nan")` yield the
non-finite values. -/
theorem pyFloat_nonfinite :
    pyFloatOfString "inf" = some .inf ∧ pyFloatOfString "nan" = some .nan := ⟨rfl, rfl⟩

/-- Parser fidelity: a decimal literal of magnitude `1e400` saturates to
infinity, as `float("1e400") = inf`. -/
theorem sciOverflow_at_1e400 : sciOverflow 1 (Int.ofNat 400) = true := by
  norm_num [sciOverflow, overflowNum]

/-- Serialization round trip: decoding an encoded config yields it back. -/
theorem decode_encode (c : BotConfig) :
    decodeConfig (encodeConfig c) = some c := by
  obtain ⟨ch, ads, last⟩ := c
  cases ch <;> cases last <;>
    simp [decodeConfig, encodeConfig, List.lookup, decOptStr, decOptInt,
          decIntList_encode, encOptStr, encOptInt]

/-! ## Claims -/

/-- Claim C1: starting from a configuration with empty `adminIds`, a
`/start` by identity `x` sets `adminIds` to exactly `[x]` and persists it
(a `save` of the updated record is among the effects); a subsequent
`/start` by any identity `y` leaves the configuration unchanged. -/
theorem start_bootstrap (cfg : BotConfig) (x : Int) (y : Option Int)
    (h : cfg.admin_ids = []) :
    (start (some x) cfg).1.admin_ids = [x] ∧
    Effect.save (start (some x) cfg).1 ∈ (start (some x) cfg).2 ∧
    (start y (start (some x) cfg).1).1 = (start (some x) cfg).1 := by
  refine ⟨by simp [start, h], by simp [start, h], ?_⟩
  cases y <;> simp [start, h]

theorem start_bootstrap_witness :
    (start (some 42) ⟨none, [], none⟩).1.admin_ids = [42] ∧
    Effect.save (start (some 42) ⟨none, [], none⟩).1 ∈ (start (some 42) ⟨none, [], none⟩).2 ∧
    (start (some 7) (start (some 42) ⟨none, [], none⟩).1).1 =
      (start (some 42) ⟨none, [], none⟩).1 :=
  start_bootstrap ⟨none, [], none⟩ 42 (some 7) rfl

/-- Claim C2, counterexample: the scheduled job does NOT capture the
channel by value.  With channel `@a`, an admin schedules `hello`; then
`/setchannel @b`; when the job fires it publishes to `@b`, not `@a`. -/
theorem scheduled_target_cex :
    (job_callback ⟨"hello"⟩ 5
        (setchannel (some 1) ["@b"]
          (schedule_in (some 1) ["0", "hello"] ⟨some "@a", [1], none⟩).1).1).2 =
      [Effect.sendMessage (some "@b") "hello",
       Effect.save ⟨some "@b", [1], some 5⟩] ∧
    (some "@b" : Option String) ≠ some "@a" := by
  exact ⟨by decide, by decide⟩

/-- Claim C2, amended: a scheduled job captures only the payload text by
value; the target channel is re-read from the live configuration when
the job fires, so the publish goes to the `channel_id` current at fire
time (which a `/setchannel` in between does change). -/
theorem job_fires_at_current_channel (job : Job) (mid : Int) (cfg : BotConfig) :
    job_callback job mid cfg =
      ({ cfg with last_channel_message_id := some mid },
       [Effect.sendMessage cfg.channel_id job.text,
        Effect.save { cfg with last_channel_message_id := some mid }]) := rfl

/-- Claim C3, counterexample: `/setchannel` is a privileged command, yet
invoked by an admin while `channelRef` is unset it mutates the
configuration (it sets the channel) instead of replying with the
configure-channel-first guidance. -/
theorem setchannel_without_channel_cex :
    setchannel (some 1) ["@chan"] ⟨none, [1], none⟩ =
      (⟨some "@chan", [1], none⟩,
       [Effect.save ⟨some "@chan", [1], none⟩,
        Effect.reply (setchannelOkMsg "@chan")]) ∧
    (⟨some "@chan", [1], none⟩ : BotConfig) ≠ ⟨none, [1], none⟩ := by
  exact ⟨rfl, by decide⟩

/-- Claim C3, amended: among the privileged commands, those that require
the channel — `post`, `post_photo` and `schedule_in` — when invoked by an
admin while `channelRef` is unset reply with the configure-channel-first
guidance and leave the configuration unchanged; `pin_last` likewise
performs no mutation but replies with its no-recent-message guidance;
`setchannel` and `addadmin` do not check `channelRef`. -/
theorem channel_guard_no_mutation (uid : Option Int) (args : List String)
    (ph : Option (String × Option String)) (mid : Int) (pinOk : Bool)
    (cfg : BotConfig)
    (hadm : is_admin uid cfg = true)
    (hch : pyTruthyStr cfg.channel_id = false) :
    post uid args mid cfg = (cfg, [Effect.reply channelFirstMsg]) ∧
    post_photo uid ph mid cfg = (cfg, [Effect.reply channelFirstMsg]) ∧
    schedule_in uid args cfg = (cfg, [Effect.reply channelFirstMsg]) ∧
    pin_last uid pinOk cfg = (cfg, [Effect.reply noRecentMsg]) := by
  refine ⟨?_, ?_, ?_, ?_⟩ <;> simp [post, post_photo, schedule_in, pin_last, hadm, hch]

theorem channel_guard_no_mutation_witness :
    post (some 1) ["hi"] 7 ⟨none, [1], none⟩ = (⟨none, [1], none⟩, [Effect.reply channelFirstMsg]) ∧
    post_photo (some 1) none 7 ⟨none, [1], none⟩ = (⟨none, [1], none⟩, [Effect.reply channelFirstMsg]) ∧
    schedule_in (some 1) ["0", "hi"] ⟨none, [1], none⟩ = (⟨none, [1], none⟩, [Effect.reply channelFirstMsg]) ∧
    pin_last (some 1) true ⟨none, [1], none⟩ = (⟨none, [1], none⟩, [Effect.reply noRecentMsg]) :=
  channel_guard_no_mutation (some 1) ["hi"] none 7 true ⟨none, [1], none⟩ rfl rfl

/-! ### Frame lemmas for the admin-list invariant -/

theorem setchannel_admin_ids (uid : Option Int) (args : List String) (cfg : BotConfig) :
    (setchannel uid args cfg).1.admin_ids = cfg.admin_ids := by
  unfold setchannel
  split
  · rfl
  · split <;> rfl

theorem post_admin_ids (uid : Option Int) (args : List String) (mid : Int) (cfg : BotConfig) :
    (post uid args mid cfg).1.admin_ids = cfg.admin_ids := by
  unfold post
  split
  · rfl
  · split
    · rfl
    · split <;> rfl

theorem post_photo_admin_ids (uid : Option Int) (ph : Option (String × Option String))
    (mid : Int) (cfg : BotConfig) :
    (post_photo uid ph mid cfg).1.admin_ids = cfg.admin_ids := by
  unfold post_photo
  split
  · rfl
  · split
    · rfl
    · split <;> rfl

theorem schedule_in_admin_ids (uid : Option Int) (args : List String) (cfg : BotConfig) :
    (schedule_in uid args cfg).1.admin_ids = cfg.admin_ids := by
  unfold schedule_in
  split
  · rfl
  · split
    · rfl
    · split
      · split <;> rfl
      · rfl

theorem pin_last_admin_ids (uid : Option Int) (pinOk : Bool) (cfg : BotConfig) :
    (pin_last uid pinOk cfg).1.admin_ids = cfg.admin_ids := by
  unfold pin_last
  split
  · rfl
  · split <;> rfl

theorem start_admin_ids_grows (uid : Option Int) (cfg : BotConfig) :
    cfg.admin_ids ⊆ (start uid cfg).1.admin_ids := by
  unfold start
  split
  · split
    · have h : cfg.admin_ids = [] := by
        simp_all [List.isEmpty_iff]
      simp [h]
    · exact fun _ h => h
  · exact fun _ h => h

theorem addadmin_admin_ids_grows (uid : Option Int) (args : List String) (cfg : BotConfig) :
    cfg.admin_ids ⊆ (addadmin uid args cfg).1.admin_ids := by
  unfold addadmin
  split
  · exact fun _ h => h
  · split
    · exact fun _ h => h
    · split
      · exact fun _ h => h
      · split
        · exact fun _ h => h
        · exact fun _ h => List.mem_append_left _ h

theorem addadmin_from_empty (uid : Option Int) (args : List String) (cfg : BotConfig)
    (h : cfg.admin_ids = []) :
    (addadmin uid args cfg).1 = cfg := by
  have hguard : is_admin uid cfg = false := by
    cases uid <;> simp [is_admin, h]
  simp [addadmin, hguard]

/-- Claim C4: for every command invocation, the resulting `adminIds` is a
superset of the prior one (identities are never removed), and `adminIds`
goes from empty to non-empty only through the `/start` bootstrap. -/
theorem admin_ids_monotone (uid : Option Int) (mid : Int) (pinOk : Bool)
    (c : Cmd) (cfg : BotConfig) :
    cfg.admin_ids ⊆ (step uid mid pinOk c cfg).1.admin_ids ∧
    (cfg.admin_ids = [] → (step uid mid pinOk c cfg).1.admin_ids ≠ [] → c = Cmd.start) := by
  cases c with
  | start => exact ⟨start_admin_ids_grows uid cfg, fun _ _ => rfl⟩
  | help => exact ⟨fun _ h => h, fun he hne => absurd he hne⟩
  | setchannel args =>
      have hf : (step uid mid pinOk (Cmd.setchannel args) cfg).1.admin_ids = cfg.admin_ids :=
        setchannel_admin_ids uid args cfg
      exact ⟨by rw [hf]; exact fun _ h => h, fun he hne => absurd he (by rw [hf] at hne; exact hne)⟩
  | status => exact ⟨fun _ h => h, fun he hne => absurd he hne⟩
  | addadmin args =>
      refine ⟨addadmin_admin_ids_grows uid args cfg, fun he hne => ?_⟩
      have hf : (step uid mid pinOk (Cmd.addadmin args) cfg).1 = cfg :=
        addadmin_from_empty uid args cfg he
      rw [hf] at hne
      exact absurd he hne
  | post args =>
      have hf : (step uid mid pinOk (Cmd.post args) cfg).1.admin_ids = cfg.admin_ids :=
        post_admin_ids uid args mid cfg
      exact ⟨by rw [hf]; exact fun _ h => h, fun he hne => absurd he (by rw [hf] at hne; exact hne)⟩
  | post_photo ph =>
      have hf : (step uid mid pinOk (Cmd.post_photo ph) cfg).1.admin_ids = cfg.admin_ids :=
        post_photo_admin_ids uid ph mid cfg
      exact ⟨by rw [hf]; exact fun _ h => h, fun he hne => absurd he (by rw [hf] at hne; exact hne)⟩
  | schedule_in args =>
      have hf : (step uid mid pinOk (Cmd.schedule_in args) cfg).1.admin_ids = cfg.admin_ids :=
        schedule_in_admin_ids uid args cfg
      exact ⟨by rw [hf]; exact fun _ h => h, fun he hne => absurd he (by rw [hf] at hne; exact hne)⟩
  | pin_last =>
      have hf : (step uid mid pinOk Cmd.pin_last cfg).1.admin_ids = cfg.admin_ids :=
        pin_last_admin_ids uid pinOk cfg
      exact ⟨by rw [hf]; exact fun _ h => h, fun he hne => absurd he (by rw [hf] at hne; exact hne)⟩

theorem admin_ids_monotone_witness :
    (⟨none, [], none⟩ : BotConfig).admin_ids ⊆
      (step (some 5) 7 true (Cmd.addadmin ["2"]) ⟨none, [], none⟩).1.admin_ids ∧
    ((⟨none, [], none⟩ : BotConfig).admin_ids = [] →
      (step (some 5) 7 true (Cmd.addadmin ["2"]) ⟨none, [], none⟩).1.admin_ids ≠ [] →
      Cmd.addadmin ["2"] = Cmd.start) :=
  admin_ids_monotone (some 5) 7 true (Cmd.addadmin ["2"]) ⟨none, [], none⟩

/-- Claim C5: a successful `/post` (admin, channel set, non-empty args)
records exactly the transport-returned message id in
`last_channel_message_id`, persists the updated record, and the record
survives the serialize/deserialize round trip unchanged. -/
theorem post_sets_last_and_roundtrips (uid : Option Int) (args : List String)
    (mid : Int) (cfg : BotConfig)
    (hadm : is_admin uid cfg = true)
    (hch : pyTruthyStr cfg.channel_id = true)
    (hargs : args ≠ []) :
    (post uid args mid cfg).1.last_channel_message_id = some mid ∧
    Effect.save (post uid args mid cfg).1 ∈ (post uid args mid cfg).2 ∧
    decodeConfig (encodeConfig (post uid args mid cfg).1) = some (post uid args mid cfg).1 := by
  obtain ⟨a, l, rfl⟩ := List.exists_cons_of_ne_nil hargs
  refine ⟨?_, ?_, decode_encode _⟩ <;> simp [post, hadm, hch]

theorem post_sets_last_and_roundtrips_witness :
    (post (some 1) ["hi"] 7 ⟨some "@c", [1], none⟩).1.last_channel_message_id = some 7 ∧
    Effect.save (post (some 1) ["hi"] 7 ⟨some "@c", [1], none⟩).1 ∈
      (post (some 1) ["hi"] 7 ⟨some "@c", [1], none⟩).2 ∧
    decodeConfig (encodeConfig (post (some 1) ["hi"] 7 ⟨some "@c", [1], none⟩).1) =
      some (post (some 1) ["hi"] 7 ⟨some "@c", [1], none⟩).1 :=
  post_sets_last_and_roundtrips (some 1) ["hi"] 7 ⟨some "@c", [1], none⟩ rfl rfl (by decide)

/-- Claim C8: a `/post` while `channelRef` is unset (whether the invoker
is an admin or not) leaves the whole configuration record unchanged and
never issues a channel publish. -/
theorem post_without_channel_frame (uid : Option Int) (args : List String)
    (mid : Int) (cfg : BotConfig)
    (hch : pyTruthyStr cfg.channel_id = false) :
    (post uid args mid cfg).1 = cfg ∧
    ((post uid args mid cfg).2.all fun e => !e.isSendMessage) = true := by
  unfold post
  by_cases h : is_admin uid cfg <;> simp [h, hch, Effect.isSendMessage]

theorem post_without_channel_frame_witness :
    (post (some 1) ["hi"] 7 ⟨none, [1], none⟩).1 = ⟨none, [1], none⟩ ∧
    ((post (some 1) ["hi"] 7 ⟨none, [1], none⟩).2.all fun e => !e.isSendMessage) = true :=
  post_without_channel_frame (some 1) ["hi"] 7 ⟨none, [1], none⟩ rfl

/-- Claim C6, counterexample: a non-admin invoking `/setchannel` with NO
arguments receives the admins-only reply, not the usage reply — the
authorization gate runs before argument validation. -/
theorem auth_first_cex :
    setchannel (some 99) [] ⟨none, [1], none⟩ =
      (⟨none, [1], none⟩, [Effect.reply adminsOnlyMsg]) ∧
    adminsOnlyMsg ≠ setchannelUsageMsg := by
  exact ⟨by decide, by decide⟩

/-- Claim C6, amended: for every privileged command the authorization
check precedes argument validation: a non-admin invocation yields the
admins-only reply regardless of the arguments and performs no mutation,
while an admin invocation with missing arguments yields the usage
reply. -/
theorem auth_precedes_validation (uid v : Option Int) (args : List String)
    (ph : Option (String × Option String)) (mid : Int) (pinOk : Bool)
    (cfg cfg2 : BotConfig)
    (hnon : is_admin uid cfg = false)
    (hadm : is_admin v cfg2 = true) :
    setchannel uid args cfg = (cfg, [Effect.reply adminsOnlyMsg]) ∧
    addadmin uid args cfg = (cfg, [Effect.reply adminsOnlyMsg]) ∧
    post uid args mid cfg = (cfg, [Effect.reply adminsOnlyMsg]) ∧
    post_photo uid ph mid cfg = (cfg, [Effect.reply adminsOnlyMsg]) ∧
    schedule_in uid args cfg = (cfg, [Effect.reply adminsOnlyMsg]) ∧
    pin_last uid pinOk cfg = (cfg, [Effect.reply adminsOnlyMsg]) ∧
    setchannel v [] cfg2 = (cfg2, [Effect.reply setchannelUsageMsg]) ∧
    addadmin v [] cfg2 = (cfg2, [Effect.reply addadminUsageMsg]) := by
  refine ⟨?_, ?_, ?_, ?_, ?_, ?_, ?_, ?_⟩ <;>
    simp [setchannel, addadmin, post, post_photo, schedule_in, pin_last, hnon, hadm]

theorem auth_precedes_validation_witness :
    setchannel (some 99) ["@chan"] ⟨none, [1], none⟩ =
      (⟨none, [1], none⟩, [Effect.reply adminsOnlyMsg]) ∧
    addadmin (some 99) ["@chan"] ⟨none, [1], none⟩ =
      (⟨none, [1], none⟩, [Effect.reply adminsOnlyMsg]) ∧
    post (some 99) ["@chan"] 7 ⟨none, [1], none⟩ =
      (⟨none, [1], none⟩, [Effect.reply adminsOnlyMsg]) ∧
    post_photo (some 99) none 7 ⟨none, [1], none⟩ =
      (⟨none, [1], none⟩, [Effect.reply adminsOnlyMsg]) ∧
    schedule_in (some 99) ["@chan"] ⟨none, [1], none⟩ =
      (⟨none, [1], none⟩, [Effect.reply adminsOnlyMsg]) ∧
    pin_last (some 99) true ⟨none, [1], none⟩ =
      (⟨none, [1], none⟩, [Effect.reply adminsOnlyMsg]) ∧
    setchannel (some 1) [] ⟨none, [1], none⟩ =
      (⟨none, [1], none⟩, [Effect.reply setchannelUsageMsg]) ∧
    addadmin (some 1) [] ⟨none, [1], none⟩ =
      (⟨none, [1], none⟩, [Effect.reply addadminUsageMsg]) :=
  auth_precedes_validation (some 99) (some 1) ["@chan"] none 7 true
    ⟨none, [1], none⟩ ⟨none, [1], none⟩ rfl rfl

/-- Claim C7: `/addadmin` is idempotent — an admin adding identity `u`
twice yields the same configuration as adding it once, with `u` occurring
exactly once in `adminIds` (given it occurred at most once before); a
non-admin invocation is rejected with the admins-only reply and changes
nothing. -/
theorem addadmin_idem (a u : Int) (s : String) (v : Option Int) (cfg : BotConfig)
    (hadm : is_admin (some a) cfg = true)
    (hs : pyIntOfString s = some u)
    (hcount : cfg.admin_ids.count u ≤ 1)
    (hnon : is_admin v cfg = false) :
    (addadmin (some a) [s] ((addadmin (some a) [s] cfg).1)).1 =
      (addadmin (some a) [s] cfg).1 ∧
    (addadmin (some a) [s] cfg).1.admin_ids.count u = 1 ∧
    addadmin v [s] cfg = (cfg, [Effect.reply adminsOnlyMsg]) := by
  have hmem : a ∈ cfg.admin_ids := by
    simp only [is_admin, Bool.and_eq_true] at hadm
    simpa using hadm.2
  by_cases hu : u ∈ cfg.admin_ids
  · have hc : cfg.admin_ids.contains u = true := List.elem_eq_true_of_mem hu
    have h1 : addadmin (some a) [s] cfg = (cfg, [.reply (addadminOkMsg u)]) := by
      simp [addadmin, hadm, hs, hc, hu]
    have hpos : 0 < cfg.admin_ids.count u := List.count_pos_iff.mpr hu
    refine ⟨by simp [h1], ?_, by simp [addadmin, hnon]⟩
    simp [h1]
    omega
  · have hc : cfg.admin_ids.contains u = false := by simpa using hu
    have h1 : addadmin (some a) [s] cfg =
        ({ cfg with admin_ids := cfg.admin_ids ++ [u] },
         [.save { cfg with admin_ids := cfg.admin_ids ++ [u] },
          .reply (addadminOkMsg u)]) := by
      simp [addadmin, hadm, hs, hc, hu]
    have hadm2 : is_admin (some a) { cfg with admin_ids := cfg.admin_ids ++ [u] } = true := by
      simp [is_admin]
      exact Or.inl hmem
    have hc2 : (cfg.admin_ids ++ [u]).contains u = true := by simp
    have h0 : cfg.admin_ids.count u = 0 := List.count_eq_zero.mpr hu
    refine ⟨?_, ?_, by simp [addadmin, hnon]⟩
    · rw [h1]
      simp [addadmin, hadm2, hs, hc2]
    · rw [h1]
      simp [List.count_append, h0]

theorem addadmin_idem_witness :
    (addadmin (some 1) ["2"] ((addadmin (some 1) ["2"] ⟨none, [1], none⟩).1)).1 =
      (addadmin (some 1) ["2"] ⟨none, [1], none⟩).1 ∧
    (addadmin (some 1) ["2"] ⟨none, [1], none⟩).1.admin_ids.count 2 = 1 ∧
    addadmin (some 3) ["2"] ⟨none, [1], none⟩ =
      (⟨none, [1], none⟩, [Effect.reply adminsOnlyMsg]) :=
  addadmin_idem 1 2 "2" (some 3) ⟨none, [1], none⟩ rfl rfl (by decide) rfl

/-- Claim C9: scheduling `schedule_in 0 hello` leaves the configuration
untouched and registers a zero-delay job carrying `hello`; firing that
job produces exactly the configuration an immediate `post hello` by the
same admin produces (the transport-returned id recorded and persisted),
with the same publish-and-save effect sequence. -/
theorem schedule_zero_refines_post (uid : Option Int) (mid : Int) (cfg : BotConfig)
    (hadm : is_admin uid cfg = true)
    (hch : pyTruthyStr cfg.channel_id = true) :
    (schedule_in uid ["0", "hello"] cfg).1 = cfg ∧
    Effect.runOnce (.finite 0) ⟨"hello"⟩ ∈ (schedule_in uid ["0", "hello"] cfg).2 ∧
    job_callback ⟨"hello"⟩ mid ((schedule_in uid ["0", "hello"] cfg).1) =
      ((post uid ["hello"] mid cfg).1,
       [Effect.sendMessage cfg.channel_id "hello",
        Effect.save (post uid ["hello"] mid cfg).1]) ∧
    Effect.sendMessage cfg.channel_id "hello" ∈ (post uid ["hello"] mid cfg).2 ∧
    Effect.save (post uid ["hello"] mid cfg).1 ∈ (post uid ["hello"] mid cfg).2 := by
  have h0 : pyFloatOfString "0" = some (.finite (ratOfSci 0 0)) := rfl
  have h0' : pyFloatOfString "0" = some (.finite 0) := by
    rw [h0]; norm_num [ratOfSci]
  have hpost : post uid ["hello"] mid cfg =
      ({ cfg with last_channel_message_id := some mid },
       [Effect.sendMessage cfg.channel_id "hello",
        Effect.save { cfg with last_channel_message_id := some mid },
        Effect.reply postOkMsg]) := by
    simp [post, hadm, hch, joinSpace]
  have hsched : schedule_in uid ["0", "hello"] cfg =
      (cfg, [Effect.runOnce (.finite 0) ⟨"hello"⟩,
             Effect.reply (scheduledMsg (.finite 0))]) := by
    simp [schedule_in, hadm, hch, h0', joinSpace, pyFloatMul60]
  rw [hsched, hpost]
  refine ⟨rfl, by simp, by simp [job_callback], by simp, by simp⟩

theorem schedule_zero_refines_post_witness :
    (schedule_in (some 1) ["0", "hello"] ⟨some "@c", [1], none⟩).1 =
      ⟨some "@c", [1], none⟩ ∧
    Effect.runOnce (.finite 0) ⟨"hello"⟩ ∈
      (schedule_in (some 1) ["0", "hello"] ⟨some "@c", [1], none⟩).2 ∧
    job_callback ⟨"hello"⟩ 7 ((schedule_in (some 1) ["0", "hello"] ⟨some "@c", [1], none⟩).1) =
      ((post (some 1) ["hello"] 7 ⟨some "@c", [1], none⟩).1,
       [Effect.sendMessage (some "@c") "hello",
        Effect.save (post (some 1) ["hello"] 7 ⟨some "@c", [1], none⟩).1]) ∧
    Effect.sendMessage (some "@c") "hello" ∈
      (post (some 1) ["hello"] 7 ⟨some "@c", [1], none⟩).2 ∧
    Effect.save (post (some 1) ["hello"] 7 ⟨some "@c", [1], none⟩).1 ∈
      (post (some 1) ["hello"] 7 ⟨some "@c", [1], none⟩).2 :=
  schedule_zero_refines_post (some 1) 7 ⟨some "@c", [1], none⟩ rfl rfl

/-- Claim C10: `/schedule_in` places no lower bound on the delay — for an
admin with the channel set and at least two arguments, any first argument
accepted by `float()` (including `0`, negatives, `inf` and `nan`) leads
to a job being registered with delay `minutes * 60`, leaving the
configuration unchanged; only a first argument that `float()` rejects
draws the numeric-validation reply. -/
theorem schedule_in_no_lower_bound (uid : Option Int) (a a2 b : String)
    (rest : List String) (m : PyFloat) (cfg : BotConfig)
    (hadm : is_admin uid cfg = true)
    (hch : pyTruthyStr cfg.channel_id = true)
    (hm : pyFloatOfString a = some m)
    (hbad : pyFloatOfString a2 = none) :
    (schedule_in uid (a :: b :: rest) cfg).1 = cfg ∧
    Effect.runOnce (pyFloatMul60 m) ⟨joinSpace (b :: rest)⟩ ∈
      (schedule_in uid (a :: b :: rest) cfg).2 ∧
    schedule_in uid (a2 :: b :: rest) cfg = (cfg, [Effect.reply minutesNumericMsg]) := by
  refine ⟨?_, ?_, ?_⟩ <;> simp [schedule_in, hadm, hch, hm, hbad]

theorem schedule_in_no_lower_bound_witness :
    (schedule_in (some 1) ["1_5", "x"] ⟨some "@c", [1], none⟩).1 =
      ⟨some "@c", [1], none⟩ ∧
    Effect.runOnce (pyFloatMul60 (.finite (ratOfSci 15 0))) ⟨joinSpace ["x"]⟩ ∈
      (schedule_in (some 1) ["1_5", "x"] ⟨some "@c", [1], none⟩).2 ∧
    schedule_in (some 1) ["abc", "x"] ⟨some "@c", [1], none⟩ =
      (⟨some "@c", [1], none⟩, [Effect.reply minutesNumericMsg]) :=
  schedule_in_no_lower_bound (some 1) "1_5" "abc" "x" [] (.finite (ratOfSci 15 0))
    ⟨some "@c", [1], none⟩ rfl rfl rfl (by decide)

end TgBot
